import Mathlib

/-!
Verification development for the rnr-pay payment-confirmation flow.

The definitions below are a shallow embedding of the TypeScript source:
  - src/src/app/api/payment-webhook/route.ts   (POST webhook handler)
  - src/src/app/actions.ts                     (handlePaymentInitiation,
      checkTransactionStatus, processAndSendTicketEmail,
      resendTicketEmailAction; the file's second, current revision)
  - src/src/lib/emailService.ts                (sendPaymentConfirmationEmail)

Firestore is modelled as an explicit store value: the tickets collection is a
keyed map, the transactions collection an append-only list.  External
collaborators (the Umeskia gateway, the Mailgun delivery) are inputs to each
operation.  Server timestamps are modelled by an explicit `now : Nat`
parameter.  Dates parsed from YYYYMMDDHHMMSS strings are modelled as abstract
instants identified by the numeric value of the string.
-/

namespace RnrPay

/-- JavaScript truthiness of an optional string field: `undefined` and the
empty string are falsy, so `x || null` keeps only a nonempty string. -/
def truthyStr : Option String → Option String
  | some s => if s = "" then none else some s
  | none => none

/-- JavaScript truthiness of an optional numeric field: `undefined` and `0`
are falsy, so `x || null` keeps only a nonzero number. -/
def truthyNat : Option Nat → Option Nat
  | some n => if n = 0 then none else some n
  | none => none

/-- Numeric value of a digit list, most significant first. -/
def digitsToNat (cs : List Char) : Nat :=
  cs.foldl (fun n c => 10 * n + (c.toNat - '0'.toNat)) 0

/-- Instant parsed from an Umeskia "YYYYMMDDHHMMSS" date string (route.ts
lines 74-87 and the matching block of checkTransactionStatus).  The
`Date.UTC` value is modelled abstractly by the numeric value of the digit
prefix, which is injective on well-formed date strings. -/
def parseStkDate (s : String) : Nat :=
  digitsToNat (s.toList.takeWhile Char.isDigit)

/-- Integer part of the amount string, standing in for the JavaScript
`parseFloat` value where a number must be stored (transaction logs). -/
def amountToNat (s : String) : Nat :=
  digitsToNat (s.toList.takeWhile Char.isDigit)

/-- Whether JavaScript `parseFloat` on the string yields a number strictly
greater than zero, as required by the zod refinement on the amount field of
PaymentInitiationSchema (actions.ts).  Modelled for decimal literals: leading
spaces, an optional sign, integer digits, an optional fractional part; the
value is a positive number exactly when at least one digit was parsed, the
sign is not minus, and some parsed digit is nonzero. -/
def parseFloatPositive (s : String) : Bool :=
  let cs := s.toList.dropWhile (fun c => c = ' ')
  let signOk : Bool × List Char :=
    match cs with
    | '-' :: r => (false, r)
    | '+' :: r => (true, r)
    | r => (true, r)
  let intPart := signOk.2.takeWhile Char.isDigit
  let afterInt := signOk.2.dropWhile Char.isDigit
  let fracPart :=
    match afterInt with
    | '.' :: r => r.takeWhile Char.isDigit
    | _ => []
  (!intPart.isEmpty || !fracPart.isEmpty) && signOk.1 &&
    ((intPart ++ fracPart).any (fun c => c != '0'))

/-- Test against the phone regex of PaymentInitiationSchema:
`(0[17]\d\x7b8\x7d|254[17]\d\x7b8\x7d)` anchored at both ends. -/
def phoneFormatOk (p : String) : Bool :=
  let cs := p.toList
  (cs.length == 10 &&
    (match cs with
     | '0' :: d :: rest => (d == '1' || d == '7') && rest.all Char.isDigit
     | _ => false))
  ||
  (cs.length == 12 &&
    (match cs with
     | '2' :: '5' :: '4' :: d :: rest => (d == '1' || d == '7') && rest.all Char.isDigit
     | _ => false))

/-- Shape check standing in for zod's email regex: one at sign separating a
nonempty local part from a domain whose dot-separated labels are nonempty,
with a final label of at least two characters. -/
def emailShapeOk (e : String) : Bool :=
  match e.splitOn "@" with
  | [lp, dom] =>
      (!lp.isEmpty) &&
      (let labels := dom.splitOn "."
       decide (2 ≤ labels.length) && labels.all (fun l => !l.isEmpty) &&
       (match labels.getLast? with
        | some lastLabel => decide (2 ≤ lastLabel.length)
        | none => false))
  | _ => false

/-- Validation of the optional email parameter:
`z.string().email().optional().or(z.literal(''))`. -/
def emailFieldOk : Option String → Bool
  | none => true
  | some e => if e = "" then true else emailShapeOk e

/-- Body.stkCallback of the Umeskia webhook payload after zod validation
(UmeskiaStkCallbackItemSchema in route.ts).  Numeric-or-numeric-string union
fields are modelled by their numeric value. -/
structure StkCallback where
  ResponseCode : Int
  ResponseDescription : String
  MerchantRequestID : String
  CheckoutRequestID : String
  TransactionID : Option String := none
  TransactionAmount : Option Nat := none
  TransactionReceipt : Option String := none
  TransactionDate : Option String := none
  TransactionReference : Option String := none
  Msisdn : Option String := none
  deriving Repr, DecidableEq

/-- Response body of the Umeskia transaction-status query as read by
checkTransactionStatus.  `message` is the fallback message field consulted by
the error branch. -/
structure StatusApiResponse where
  ResultCode : String
  TransactionStatus : String
  TransactionCode : String
  ResultDesc : Option String := none
  TransactionID : Option String := none
  TransactionReceipt : Option String := none
  TransactionAmount : Option Nat := none
  Msisdn : Option String := none
  TransactionDate : Option String := none
  TransactionReference : Option String := none
  message : Option String := none
  deriving Repr, DecidableEq

/-- Ticket document of the tickets collection: the fields the payment flow
reads or writes.  Timestamp-valued fields hold abstract instants. -/
structure Ticket where
  status : String
  id : Option String := none
  amount : Option Nat := none
  quantity : Option Nat := none
  phone : Option String := none
  email : Option String := none
  emailSent : Bool := false
  umeskiaTransactionRequestId : Option String := none
  mpesaResultCode : Option String := none
  mpesaResultDesc : Option String := none
  merchantRequestId : Option String := none
  checkoutRequestId : Option String := none
  umeskiaTransactionId : Option String := none
  mpesaReceiptNumber : Option String := none
  mpesaAmountPaid : Option Nat := none
  mpesaPhoneNumber : Option String := none
  mpesaTransactionTimestamp : Option Nat := none
  lastWebhookEventAt : Option Nat := none
  lastWebhookEvent : Option String := none
  lastPaymentAttemptAt : Option Nat := none
  lastCheckedAt : Option Nat := none
  lastCheckedEvent : Option String := none
  errorDetails : Option String := none
  lastEmailAttemptAt : Option Nat := none
  lastEmailError : Option String := none
  resentEmailCount : Nat := 0
  webhookPayload : Option StkCallback := none
  statusCheckConfirmationPayload : Option StatusApiResponse := none
  deriving Repr, DecidableEq

/-- Audit entry of the append-only transactions collection; the union of the
fields written by the four places that call addDoc on it. -/
structure TransactionLog where
  ticketId : String
  type : String
  status : Option String := none
  merchantRequestId : Option String := none
  checkoutRequestId : Option String := none
  umeskiaTransactionRequestId : Option String := none
  umeskiaTransactionId : Option String := none
  resultCode : Option String := none
  resultDesc : Option String := none
  amount : Option Nat := none
  phone : Option String := none
  email : Option String := none
  mpesaReceiptNumber : Option String := none
  mpesaPhoneNumber : Option String := none
  transactionDate : Option Nat := none
  reference : Option String := none
  source : Option String := none
  providerResponse : Option String := none
  initiatedAt : Option Nat := none
  checkedAt : Option Nat := none
  createdAt : Option Nat := none
  rawStkPayload : Option StkCallback := none
  rawStatusPayload : Option StatusApiResponse := none
  statusCheckResponse : Option StatusApiResponse := none
  deriving Repr, DecidableEq

/-- Firestore as seen by the flows: the tickets collection keyed by document
id, the transactions collection as an append-only list, plus the recipients
of every actual delivery handed to the email collaborator (sendEmail calls
with a nonempty recipient). -/
structure Store where
  tickets : String → Option Ticket
  transactions : List TransactionLog
  sentEmails : List String

/-- Ticket write: updateDoc merges the given document under its id.  Every
call site performs a getDoc existence check first, matching updateDoc's
requirement that the document exist. -/
def Store.setTicket (s : Store) (tid : String) (t : Ticket) : Store :=
  { s with tickets := fun k => if k = tid then some t else s.tickets k }

/-- Audit append: addDoc into the transactions collection. -/
def Store.addLog (s : Store) (l : TransactionLog) : Store :=
  { s with transactions := s.transactions ++ [l] }

/-- Record that sendEmail was invoked for the given recipient. -/
def Store.recordSend (s : Store) (recipient : String) : Store :=
  { s with sentEmails := s.sentEmails ++ [recipient] }

/-- Outcome of one delivery through the Mailgun collaborator (the value that
sendEmail in emailService.ts would return for this call). -/
structure EmailDelivery where
  success : Bool
  message : String
  deriving Repr, DecidableEq

/-- Result shape of sendPaymentConfirmationEmail. -/
structure EmailSendResult where
  success : Bool
  message : String
  deriving Repr, DecidableEq

/-- sendPaymentConfirmationEmail (emailService.ts lines 155-308): a falsy
recipient address (empty or missing, modelled as the empty string) is
rejected up front without invoking sendEmail; otherwise the delivery
collaborator decides the outcome.  The second component records whether
sendEmail was actually invoked. -/
def sendPaymentConfirmationEmail (toEmail : String) (delivery : EmailDelivery) :
    EmailSendResult × Bool :=
  if toEmail = "" then
    ({ success := false, message := "No recipient email address provided." }, false)
  else
    ({ success := delivery.success, message := delivery.message }, true)

/-- Inbound webhook request after body parsing: `parseError` covers a body on
which request.json() throws (and, more generally, any error thrown inside the
try block, all of which reach the same catch); `invalidSchema` is a JSON body
rejected by UmeskiaWebhookPayloadSchema.safeParse; `valid` carries the parsed
stkCallback. -/
inductive WebhookRequest where
  | parseError
  | invalidSchema
  | valid (cb : StkCallback)
  deriving Repr, DecidableEq

/-- HTTP reply of the webhook endpoint: status code, and the ResultCode field
of the acknowledgement body when one is sent (the 400 reply carries an error
body with no ResultCode). -/
structure WebhookResponse where
  httpStatus : Nat
  resultCode : Option Int := none
  deriving Repr, DecidableEq

/-- Evidence-derived payment status of an STK callback (route.ts line 71):
confirmed exactly when ResponseCode is 0. -/
def webhookStatus (cb : StkCallback) : String :=
  if cb.ResponseCode = 0 then "confirmed" else "failed"

/-- Transaction timestamp of a callback: the parsed TransactionDate when the
field is truthy, the server timestamp otherwise. -/
def webhookDate (cb : StkCallback) (now : Nat) : Nat :=
  match truthyStr cb.TransactionDate with
  | some d => parseStkDate d
  | none => now

/-- Ticket update written by the webhook (route.ts lines 104-119) — applied
unconditionally, whatever the ticket's current status. -/
def webhookTicketUpdate (t : Ticket) (cb : StkCallback) (now : Nat) : Ticket :=
  { t with
    status := webhookStatus cb
    mpesaResultCode := some (toString cb.ResponseCode)
    mpesaResultDesc := some cb.ResponseDescription
    merchantRequestId := some cb.MerchantRequestID
    checkoutRequestId := some cb.CheckoutRequestID
    umeskiaTransactionId := cb.TransactionID
    mpesaReceiptNumber := truthyStr cb.TransactionReceipt
    mpesaAmountPaid := truthyNat cb.TransactionAmount
    mpesaPhoneNumber :=
      match truthyStr cb.Msisdn with
      | some m => some m
      | none => truthyStr t.phone
    mpesaTransactionTimestamp := some (webhookDate cb now)
    lastWebhookEventAt := some now
    lastWebhookEvent := some ("umeskia_stk_callback_" ++ toString cb.ResponseCode)
    webhookPayload := some cb }

/-- Audit entry appended by the webhook (route.ts lines 123-141). -/
def webhookLogEntry (ticketDocId : String) (cb : StkCallback) (now : Nat) :
    TransactionLog :=
  { ticketId := ticketDocId
    type := "umeskia_mpesa_callback"
    merchantRequestId := some cb.MerchantRequestID
    checkoutRequestId := some cb.CheckoutRequestID
    umeskiaTransactionId := cb.TransactionID
    resultCode := some (toString cb.ResponseCode)
    resultDesc := some cb.ResponseDescription
    status := some (webhookStatus cb)
    amount := cb.TransactionAmount
    mpesaReceiptNumber := truthyStr cb.TransactionReceipt
    mpesaPhoneNumber := truthyStr cb.Msisdn
    transactionDate := some (webhookDate cb now)
    reference := cb.TransactionReference
    source := some "umeskia_mpesa_webhook"
    createdAt := some now
    rawStkPayload := some cb }

/-- Store effect of a matched webhook callback on the ticket it references
(route.ts lines 97-155): write the evidence-derived ticket update, append one
audit entry, then attempt the confirmation email when the evidence confirms
and a recipient email and receipt are present. -/
def webhookApplyEvidence (s : Store) (ticketDocId : String) (t : Ticket)
    (cb : StkCallback) (now : Nat) : Store :=
  let s2 := (s.setTicket ticketDocId (webhookTicketUpdate t cb now)).addLog
    (webhookLogEntry ticketDocId cb now)
  if webhookStatus cb = "confirmed" ∧
      (truthyStr t.email).isSome ∧ (truthyStr cb.TransactionReceipt).isSome then
    match truthyStr t.email with
    | some em => s2.recordSend em
    | none => s2
  else s2

/-- POST handler of src/src/app/api/payment-webhook/route.ts (lines 31-169).
The ticket identified by TransactionReference is updated with the
evidence-derived status unconditionally, one transactions entry is appended,
and a confirmation email is attempted when the status is confirmed and both a
recipient email and a receipt are present.  All replies are HTTP 200
acknowledgements except a schema-validation failure, which is HTTP 400. -/
def webhookPOST (s : Store) (req : WebhookRequest) (now : Nat) :
    WebhookResponse × Store :=
  match req with
  | WebhookRequest.parseError => ({ httpStatus := 200, resultCode := some 0 }, s)
  | WebhookRequest.invalidSchema => ({ httpStatus := 400 }, s)
  | WebhookRequest.valid cb =>
    match cb.TransactionReference with
    | none => ({ httpStatus := 200, resultCode := some 0 }, s)
    | some ticketDocId =>
      match s.tickets ticketDocId with
      | none => ({ httpStatus := 200, resultCode := some 0 }, s)
      | some t =>
        ({ httpStatus := 200, resultCode := some 0 },
         webhookApplyEvidence s ticketDocId t cb now)

/-- Parameters of handlePaymentInitiation. -/
structure InitParams where
  ticketId : String
  amount : String
  phone : String
  email : Option String := none
  deriving Repr, DecidableEq

/-- Result shape of handlePaymentInitiation. -/
structure PaymentInitiationResult where
  success : Bool
  message : Option String := none
  umeskiaTransactionRequestId : Option String := none
  responseDescription : Option String := none
  deriving Repr, DecidableEq

/-- Validation issues of PaymentInitiationSchema in schema field order; the
failure message joins them with a comma. -/
def initValidationErrors (p : InitParams) : List String :=
  (if p.ticketId = "" then ["Ticket ID is required"] else []) ++
  (if parseFloatPositive p.amount then [] else ["Amount must be a positive number"]) ++
  (if p.phone.length < 10 then ["Valid phone number is required"] else []) ++
  (if phoneFormatOk p.phone then []
   else ["Phone number must be in format 07xxxxxxxx, 01xxxxxxxx, 2547xxxxxxxx or 2541xxxxxxxx"]) ++
  (if emailFieldOk p.email then [] else ["Invalid email address"])

/-- Direct response of the Umeskia STK initiation call when the HTTP request
itself succeeds.  `msg` carries the value of the
`massage || message || ResultDesc` chain the code reads (empty when all three
are falsy, in which case the code falls back to "No message from provider."). -/
structure InitApiResponse where
  success : String
  transaction_request_id : Option String := none
  msg : String := ""
  deriving Repr, DecidableEq

/-- First ticket write of an initiation attempt (actions.ts lines 427-436):
reset to payment_pending_mpesa with the attempt's phone, emailSent
initialised to false, and the email stored when provided (truthy). -/
def initPendingTicket (t : Ticket) (p : InitParams) (now : Nat) : Ticket :=
  { t with
    status := "payment_pending_mpesa"
    lastPaymentAttemptAt := some now
    phone := some p.phone
    emailSent := false
    email :=
      match truthyStr p.email with
      | some e => some e
      | none => t.email }

/-- Ticket status left by an initiation attempt that got past validation and
the existence check, as a function of the gateway outcome. -/
def initOutcomeStatus : Except String InitApiResponse → String
  | Except.error _ => "payment_initiation_error"
  | Except.ok r =>
      if r.success = "200" ∧ (truthyStr r.transaction_request_id).isSome
      then "payment_stk_sent" else "payment_initiation_failed"

/-- handlePaymentInitiation (actions.ts lines 386-528, current revision).
After validation, configuration and existence checks, the ticket is
unconditionally reset to payment_pending_mpesa with the attempt's phone (and
email when provided) and emailSent initialised to false; the gateway outcome
then decides between payment_stk_sent (with one initiation audit entry),
payment_initiation_failed, and — when the HTTP call throws — the catch
branch's payment_initiation_error.  `envOk` stands for the presence of the
four M-Pesa environment variables; `gateway` is the HTTP call's outcome. -/
def handlePaymentInitiation (s : Store) (p : InitParams) (envOk : Bool)
    (gateway : Except String InitApiResponse) (now : Nat) :
    PaymentInitiationResult × Store :=
  match initValidationErrors p with
  | e :: es =>
      ({ success := false, message := some (String.intercalate ", " (e :: es)) }, s)
  | [] =>
    if ¬ envOk then
      ({ success := false,
         message := some "Payment gateway configuration error. Please contact support." }, s)
    else
      match s.tickets p.ticketId with
      | none =>
          ({ success := false,
             message := some ("Ticket " ++ p.ticketId ++ " not found.") }, s)
      | some t =>
        let t1 : Ticket := initPendingTicket t p now
        let s1 := s.setTicket p.ticketId t1
        match gateway with
        | Except.error errMsg =>
            let s2 :=
              match s1.tickets p.ticketId with
              | some t2 =>
                  s1.setTicket p.ticketId { t2 with
                    status := "payment_initiation_error"
                    lastPaymentAttemptAt := some now
                    errorDetails := some errMsg }
              | none => s1
            ({ success := false, message := some errMsg }, s2)
        | Except.ok r =>
          let responseMessage := if r.msg = "" then "No message from provider." else r.msg
          if r.success = "200" ∧ (truthyStr r.transaction_request_id).isSome then
            let rid := (truthyStr r.transaction_request_id).getD ""
            let t2 : Ticket := { t1 with
              umeskiaTransactionRequestId := some rid
              status := "payment_stk_sent" }
            let s2 := s1.setTicket p.ticketId t2
            let s3 := s2.addLog {
              ticketId := p.ticketId
              type := "mpesa_stk_initiation"
              status := some "initiated_stk_push"
              amount := some (amountToNat p.amount)
              phone := some p.phone
              email := truthyStr p.email
              umeskiaTransactionRequestId := some rid
              initiatedAt := some now
              providerResponse := some responseMessage }
            ({ success := true
               message := some responseMessage
               umeskiaTransactionRequestId := some rid
               responseDescription := some responseMessage }, s3)
          else
            let errorMessage := responseMessage
            let s2 := s1.setTicket p.ticketId { t1 with
              status := "payment_initiation_failed"
              errorDetails := some errorMessage
              lastPaymentAttemptAt := some now }
            ({ success := false, message := some errorMessage }, s2)

/-- Parameters of checkTransactionStatus. -/
structure StatusParams where
  umeskiaTransactionRequestId : String
  ticketId : String
  deriving Repr, DecidableEq

/-- Result shape of checkTransactionStatus.  The raw `data` passthrough of
the source (a debugging copy of the provider payload) is not modelled. -/
structure TransactionStatusResult where
  success : Bool
  message : String
  isConfirmed : Option Bool := none
  deriving Repr, DecidableEq

/-- Validation issues of TransactionStatusCheckSchema in schema field order. -/
def statusValidationErrors (p : StatusParams) : List String :=
  (if p.umeskiaTransactionRequestId = ""
   then ["Umeskia Transaction Request ID is required"] else []) ++
  (if p.ticketId = "" then ["Ticket ID (Firestore Doc ID) is required"] else [])

/-- Whether a status response confirms the payment:
ResultCode "200", TransactionStatus "Completed", TransactionCode "0". -/
def statusConfirms (r : StatusApiResponse) : Bool :=
  r.ResultCode == "200" && r.TransactionStatus == "Completed" && r.TransactionCode == "0"

/-- Phone recorded by a confirming status check:
`statusApiResult.Msisdn || currentTicketData?.phone || null`. -/
def statusPhone (t : Ticket) (r : StatusApiResponse) : Option String :=
  match truthyStr r.Msisdn with
  | some m => some m
  | none => truthyStr t.phone

/-- Transaction timestamp of a confirming status check: the parsed
TransactionDate when truthy, the server timestamp otherwise. -/
def statusDate (r : StatusApiResponse) (now : Nat) : Nat :=
  match truthyStr r.TransactionDate with
  | some d => parseStkDate d
  | none => now

/-- Ticket update written by a confirming status check (actions.ts lines
633-646). -/
def statusTicketUpdate (t : Ticket) (r : StatusApiResponse) (now : Nat) : Ticket :=
  { t with
    status := "confirmed"
    mpesaResultCode := some r.TransactionCode
    mpesaResultDesc := r.ResultDesc
    umeskiaTransactionId := r.TransactionID
    mpesaReceiptNumber := truthyStr r.TransactionReceipt
    mpesaAmountPaid := truthyNat r.TransactionAmount
    mpesaPhoneNumber := statusPhone t r
    mpesaTransactionTimestamp := some (statusDate r now)
    lastCheckedAt := some now
    lastCheckedEvent := some ("umeskia_status_check_confirmed_" ++ r.TransactionCode)
    statusCheckConfirmationPayload := some r }

/-- Audit entry logging every status-check API response (actions.ts lines
607-613). -/
def statusAttemptLog (p : StatusParams) (r : StatusApiResponse) (now : Nat) :
    TransactionLog :=
  { ticketId := p.ticketId
    type := "mpesa_status_check_api"
    umeskiaTransactionRequestId := some p.umeskiaTransactionRequestId
    statusCheckResponse := some r
    checkedAt := some now }

/-- Second audit entry appended when a status check confirms the payment
(actions.ts lines 648-663). -/
def statusConfirmedLog (tid : String) (t : Ticket) (r : StatusApiResponse)
    (now : Nat) : TransactionLog :=
  { ticketId := tid
    type := "umeskia_mpesa_status_confirmed"
    umeskiaTransactionId := r.TransactionID
    resultCode := some r.TransactionCode
    resultDesc := r.ResultDesc
    status := some "confirmed"
    amount := r.TransactionAmount
    mpesaReceiptNumber := truthyStr r.TransactionReceipt
    mpesaPhoneNumber := statusPhone t r
    transactionDate := some (statusDate r now)
    reference := r.TransactionReference
    source := some "umeskia_manual_status_check"
    createdAt := some now
    rawStatusPayload := some r }

/-- checkTransactionStatus (actions.ts lines 542-708, current revision).
A ticket already confirmed short-circuits before the gateway is queried: no
write at all, result isConfirmed.  Otherwise the gateway response is logged as
one mpesa_status_check_api entry, and a confirming response additionally
updates the ticket to confirmed and appends a second,
umeskia_mpesa_status_confirmed entry.  `envOk` stands for the presence of the
M-Pesa environment configuration (URL and credentials); `gateway` is the
status HTTP call's outcome, Except.error when axios throws. -/
def checkTransactionStatus (s : Store) (p : StatusParams) (envOk : Bool)
    (gateway : Except String StatusApiResponse) (now : Nat) :
    TransactionStatusResult × Store :=
  match statusValidationErrors p with
  | e :: es =>
      ({ success := false, message := String.intercalate ", " (e :: es) }, s)
  | [] =>
    if ¬ envOk then
      ({ success := false, message := "Payment status check configuration error." }, s)
    else
      match s.tickets p.ticketId with
      | none =>
          ({ success := false,
             message := "Ticket " ++ p.ticketId ++ " not found for status check." }, s)
      | some t =>
        if t.status = "confirmed" then
          ({ success := true, message := "Payment already confirmed."
             isConfirmed := some true }, s)
        else
          match gateway with
          | Except.error errMsg => ({ success := false, message := errMsg }, s)
          | Except.ok r =>
            let s1 := s.addLog (statusAttemptLog p r now)
            if statusConfirms r then
              let s3 := (s1.setTicket p.ticketId (statusTicketUpdate t r now)).addLog
                (statusConfirmedLog p.ticketId t r now)
              ({ success := true
                 message :=
                   (truthyStr r.ResultDesc).getD
                     "Payment confirmed via status check. Email will be sent shortly if not already."
                 isConfirmed := some true }, s3)
            else if r.ResultCode = "200" ∧ r.TransactionStatus ≠ "Completed" then
              ({ success := true
                 message := "Transaction status: " ++ r.TransactionStatus ++ ". " ++
                   ((truthyStr r.ResultDesc).getD "")
                 isConfirmed := some false }, s1)
            else
              ({ success := false
                 message :=
                   match truthyStr r.ResultDesc with
                   | some d => d
                   | none =>
                     match truthyStr r.message with
                     | some m => m
                     | none => "Could not confirm transaction or transaction failed/not found."
                 isConfirmed := some false }, s1)

/-- Result shape of processAndSendTicketEmail. -/
structure ProcessEmailResult where
  attempted : Bool
  success : Option Bool := none
  message : String
  deriving Repr, DecidableEq

/-- Guard of the automatic email path: status confirmed, a truthy email
address on file, and emailSent not yet true. -/
def autoEmailGuard (t : Ticket) : Bool :=
  t.status == "confirmed" && (truthyStr t.email).isSome && !t.emailSent

/-- processAndSendTicketEmail (actions.ts lines 716-766): the automatic email
guard.  Delivery is attempted only past the confirmed / email-present /
not-yet-sent checks; emailSent is flipped to true only after the delivery
succeeded, and a failed delivery records the error while leaving emailSent
untouched. -/
def processAndSendTicketEmail (s : Store) (ticketId : String)
    (delivery : EmailDelivery) (now : Nat) : ProcessEmailResult × Store :=
  if ticketId = "" then
    ({ attempted := false, message := "Ticket ID is required." }, s)
  else
    match s.tickets ticketId with
    | none => ({ attempted := false, message := "Ticket not found." }, s)
    | some t =>
      if t.status ≠ "confirmed" then
        ({ attempted := false, message := "Ticket not confirmed yet." }, s)
      else
        match truthyStr t.email with
        | none =>
            ({ attempted := false
               message := "No email address on file for this ticket to send receipt." }, s)
        | some recipientEmail =>
          if t.emailSent = true then
            ({ attempted := true, success := some true
               message := "Ticket email was already sent previously." }, s)
          else
            let sendOut := sendPaymentConfirmationEmail recipientEmail delivery
            let s1 := if sendOut.2 then s.recordSend recipientEmail else s
            if sendOut.1.success then
              let s2 := s1.setTicket ticketId { t with
                emailSent := true
                lastEmailAttemptAt := some now }
              ({ attempted := true, success := some true
                 message := "Ticket email sent successfully." }, s2)
            else
              let s2 := s1.setTicket ticketId { t with
                lastEmailAttemptAt := some now
                lastEmailError := some sendOut.1.message }
              ({ attempted := true, success := some false
                 message :=
                   if sendOut.1.message = "" then "Failed to send ticket email."
                   else sendOut.1.message }, s2)

/-- Result shape of resendTicketEmailAction. -/
structure ResendResult where
  success : Bool
  message : String
  deriving Repr, DecidableEq

/-- resendTicketEmailAction (actions.ts lines 768-818): the explicit resend.
For a confirmed ticket with an email on file it always attempts delivery —
emailSent is never consulted — increments resentEmailCount, stamps the
attempt, and records the delivery error on failure (marking emailSent true on
success). -/
def resendTicketEmailAction (s : Store) (ticketId : String)
    (delivery : EmailDelivery) (now : Nat) : ResendResult × Store :=
  if ticketId = "" then
    ({ success := false, message := "Ticket ID is required." }, s)
  else
    match s.tickets ticketId with
    | none => ({ success := false, message := "Ticket not found." }, s)
    | some t =>
      if t.status ≠ "confirmed" then
        ({ success := false, message := "Ticket is not confirmed. Cannot resend email." }, s)
      else
        match truthyStr t.email with
        | none =>
            ({ success := false, message := "No email address on file for this ticket." }, s)
        | some recipientEmail =>
          let sendOut := sendPaymentConfirmationEmail recipientEmail delivery
          let s1 := if sendOut.2 then s.recordSend recipientEmail else s
          if sendOut.1.success then
            let s2 := s1.setTicket ticketId { t with
              lastEmailAttemptAt := some now
              resentEmailCount := t.resentEmailCount + 1
              emailSent := true }
            ({ success := true, message := "Ticket email resent successfully." }, s2)
          else
            let s2 := s1.setTicket ticketId { t with
              lastEmailAttemptAt := some now
              resentEmailCount := t.resentEmailCount + 1
              lastEmailError := some sendOut.1.message }
            ({ success := false
               message :=
                 if sendOut.1.message = "" then "Failed to resend ticket email."
                 else sendOut.1.message }, s2)

/-- Concrete confirmed ticket used by the witnesses and counterexamples. -/
def ticketConfirmed : Ticket :=
  { status := "confirmed"
    id := some "T-1"
    amount := some 500
    phone := some "0712345678"
    email := some "guest@example.com"
    emailSent := false
    umeskiaTransactionRequestId := some "R-1"
    mpesaReceiptNumber := some "OLDRCPT"
    mpesaAmountPaid := some 500
    mpesaPhoneNumber := some "254712345678"
    mpesaTransactionTimestamp := some 20240101000000 }

/-- Concrete pending ticket (STK push sent, not yet confirmed). -/
def ticketPending : Ticket :=
  { ticketConfirmed with status := "payment_stk_sent", mpesaReceiptNumber := none }

/-- Store holding exactly one ticket under document id "T1". -/
def storeWith (t : Ticket) : Store :=
  { tickets := fun k => if k = "T1" then some t else none
    transactions := []
    sentEmails := [] }

/-- Successful STK callback for ticket "T1". -/
def cbSuccess : StkCallback :=
  { ResponseCode := 0
    ResponseDescription := "The service request is processed successfully."
    MerchantRequestID := "M-1"
    CheckoutRequestID := "C-1"
    TransactionID := some "UM-1"
    TransactionAmount := some 500
    TransactionReceipt := some "NEWRCPT"
    TransactionDate := some "20240102030405"
    TransactionReference := some "T1"
    Msisdn := some "254712345678" }

/-- Failed STK callback for ticket "T1". -/
def cbFail : StkCallback :=
  { cbSuccess with
    ResponseCode := 1032
    ResponseDescription := "Request cancelled by user."
    TransactionReceipt := none }

/-- Confirming status-check response for ticket "T1". -/
def statusOkR : StatusApiResponse :=
  { ResultCode := "200"
    TransactionStatus := "Completed"
    TransactionCode := "0"
    ResultDesc := some "Transaction completed successfully."
    TransactionID := some "UM-1"
    TransactionReceipt := some "RCPT9"
    TransactionAmount := some 500
    Msisdn := some "254712345678"
    TransactionDate := some "20240102030405"
    TransactionReference := some "T1" }

/-- Valid initiation parameters for ticket "T1". -/
def initParamsOk : InitParams :=
  { ticketId := "T1", amount := "500", phone := "0712345678", email := none }

/-- Valid status-check parameters for ticket "T1". -/
def statusParamsOk : StatusParams :=
  { umeskiaTransactionRequestId := "R-1", ticketId := "T1" }

/-- Store left behind by one webhook delivery of the given callback. -/
def webhookRun (s : Store) (cb : StkCallback) (now : Nat) : Store :=
  (webhookPOST s (WebhookRequest.valid cb) now).2

/-- Callback whose TransactionReference is missing. -/
def cbNoRef : StkCallback := { cbSuccess with TransactionReference := none }

/-- Callback referencing a ticket that is not in the store. -/
def cbUnknown : StkCallback := { cbSuccess with TransactionReference := some "TX" }

/-- Status response found but not completed (pending). -/
def statusPendingR : StatusApiResponse :=
  { statusOkR with
    TransactionStatus := "Pending"
    TransactionCode := "1037"
    ResultDesc := some "Timeout in completing transaction." }

/-- Successful direct initiation response. -/
def initGatewayOk : InitApiResponse :=
  { success := "200", transaction_request_id := some "R-2"
    msg := "Request sent sucessfully." }

/-- Delivery collaborator outcomes used by the witnesses. -/
def deliveryOk : EmailDelivery := { success := true, message := "Email sent successfully." }

/-- Failing delivery outcome. -/
def deliveryFail : EmailDelivery := { success := false, message := "Failed to send email: boom" }

/-- Confirmed ticket whose receipt email was already sent. -/
def ticketConfirmedSent : Ticket := { ticketConfirmed with emailSent := true }

/-- Initiation-result success flag as a function of the gateway outcome. -/
def initOutcomeSuccess : Except String InitApiResponse → Bool
  | Except.error _ => false
  | Except.ok r =>
      if r.success = "200" ∧ (truthyStr r.transaction_request_id).isSome
      then true else false

theorem Store.setTicket_get_same (s : Store) (tid : String) (t : Ticket) :
    (s.setTicket tid t).tickets tid = some t := by
  simp [Store.setTicket]

theorem Store.addLog_tickets (s : Store) (l : TransactionLog) :
    (s.addLog l).tickets = s.tickets := rfl

theorem Store.recordSend_tickets (s : Store) (e : String) :
    (s.recordSend e).tickets = s.tickets := rfl

theorem webhookApplyEvidence_ticket (s : Store) (tid : String) (t : Ticket)
    (cb : StkCallback) (now : Nat) :
    (webhookApplyEvidence s tid t cb now).tickets tid =
      some (webhookTicketUpdate t cb now) := by
  unfold webhookApplyEvidence
  split
  · split
    · simp [Store.recordSend, Store.addLog, Store.setTicket]
    · simp [Store.addLog, Store.setTicket]
  · simp [Store.addLog, Store.setTicket]

theorem webhookApplyEvidence_transactions (s : Store) (tid : String) (t : Ticket)
    (cb : StkCallback) (now : Nat) :
    (webhookApplyEvidence s tid t cb now).transactions =
      s.transactions ++ [webhookLogEntry tid cb now] := by
  unfold webhookApplyEvidence
  split
  · split
    · simp [Store.recordSend, Store.addLog, Store.setTicket]
    · simp [Store.addLog, Store.setTicket]
  · simp [Store.addLog, Store.setTicket]

theorem webhookPOST_found (s : Store) (cb : StkCallback) (now : Nat)
    (tid : String) (t : Ticket)
    (href : cb.TransactionReference = some tid) (ht : s.tickets tid = some t) :
    webhookPOST s (WebhookRequest.valid cb) now =
      ({ httpStatus := 200, resultCode := some 0 },
       webhookApplyEvidence s tid t cb now) := by
  unfold webhookPOST
  simp [href, ht]

theorem webhookStatus_of_fail (cb : StkCallback) (h : cb.ResponseCode ≠ 0) :
    webhookStatus cb = "failed" := by
  simp [webhookStatus, h]

theorem webhookStatus_of_success (cb : StkCallback) (h : cb.ResponseCode = 0) :
    webhookStatus cb = "confirmed" := by
  simp [webhookStatus, h]

/-- C3: the claim states the webhook endpoint returns a success
acknowledgement for every inbound request, malformed payloads included.  The
code disagrees: a payload rejected by schema validation is answered with HTTP
400 (route.ts lines 43-46), shown here on a concrete request. -/
theorem C3_counterexample :
    (webhookPOST (storeWith ticketPending) WebhookRequest.invalidSchema 7).1.httpStatus = 400 ∧
    (webhookPOST (storeWith ticketPending) WebhookRequest.invalidSchema 7).1.httpStatus ≠ 200 := by
  exact ⟨rfl, by decide⟩

/-- C3 amended: the webhook endpoint replies with a success acknowledgement
(HTTP 200) for every inbound request — including bodies on which parsing or
processing throws, a missing ticket reference, and an unknown ticket — except
a payload that fails schema validation, which is rejected with HTTP 400. -/
theorem C3_amended : ∀ (s : Store) (req : WebhookRequest) (now : Nat),
    (webhookPOST s req now).1.httpStatus = 200 ↔ req ≠ WebhookRequest.invalidSchema := by
  intro s req now
  cases req with
  | parseError => simp [webhookPOST]
  | invalidSchema => simp [webhookPOST]
  | valid cb =>
      unfold webhookPOST
      rcases href : cb.TransactionReference with _ | tid
      · simp [href]
      · rcases ht : s.tickets tid with _ | t <;> simp [href, ht]

theorem webhookTicketUpdate_status (t : Ticket) (cb : StkCallback) (now : Nat) :
    (webhookTicketUpdate t cb now).status = webhookStatus cb := rfl

theorem checkStatus_confirmed_shortcircuit (s : Store) (p : StatusParams)
    (gw : Except String StatusApiResponse) (now : Nat) (t : Ticket)
    (hu : p.umeskiaTransactionRequestId ≠ "") (hti : p.ticketId ≠ "")
    (ht : s.tickets p.ticketId = some t) (hc : t.status = "confirmed") :
    checkTransactionStatus s p true gw now =
      ({ success := true, message := "Payment already confirmed."
         isConfirmed := some true }, s) := by
  unfold checkTransactionStatus statusValidationErrors
  simp [hu, hti, ht, hc]

theorem handlePaymentInitiation_status (s : Store) (p : InitParams)
    (gw : Except String InitApiResponse) (now : Nat) (t : Ticket)
    (hv : initValidationErrors p = []) (ht : s.tickets p.ticketId = some t) :
    ((handlePaymentInitiation s p true gw now).2.tickets p.ticketId).map Ticket.status
      = some (initOutcomeStatus gw) := by
  unfold handlePaymentInitiation
  rw [hv]
  simp only [ht]
  cases gw with
  | error msg =>
      simp [initOutcomeStatus, Store.setTicket]
  | ok r =>
      by_cases hok : r.success = "200" ∧ (truthyStr r.transaction_request_id).isSome
      · simp [initOutcomeStatus, hok, Store.setTicket, Store.addLog]
      · simp [initOutcomeStatus, hok, Store.setTicket]

theorem initOutcomeStatus_ne_confirmed (gw : Except String InitApiResponse) :
    initOutcomeStatus gw ≠ "confirmed" := by
  cases gw with
  | error msg => simp [initOutcomeStatus]
  | ok r =>
      simp only [initOutcomeStatus]
      split <;> decide

theorem webhookRun_ticket (s : Store) (cb : StkCallback) (now : Nat)
    (tid : String) (t : Ticket)
    (href : cb.TransactionReference = some tid) (ht : s.tickets tid = some t) :
    (webhookRun s cb now).tickets tid = some (webhookTicketUpdate t cb now) := by
  unfold webhookRun
  rw [webhookPOST_found s cb now tid t href ht]
  exact webhookApplyEvidence_ticket s tid t cb now

theorem webhookRun_transactions (s : Store) (cb : StkCallback) (now : Nat)
    (tid : String) (t : Ticket)
    (href : cb.TransactionReference = some tid) (ht : s.tickets tid = some t) :
    (webhookRun s cb now).transactions = s.transactions ++ [webhookLogEntry tid cb now] := by
  unfold webhookRun
  rw [webhookPOST_found s cb now tid t href ht]
  exact webhookApplyEvidence_transactions s tid t cb now

theorem truthyStr_some_ne (o : Option String) (r : String)
    (h : truthyStr o = some r) : r ≠ "" := by
  cases o with
  | none => simp [truthyStr] at h
  | some v =>
      by_cases hv : v = ""
      · simp [truthyStr, hv] at h
      · simp [truthyStr, hv] at h
        exact h ▸ hv

theorem sendPaymentConfirmationEmail_nonempty (r : String) (d : EmailDelivery)
    (h : r ≠ "") :
    sendPaymentConfirmationEmail r d =
      ({ success := d.success, message := d.message }, true) := by
  simp [sendPaymentConfirmationEmail, h]

/-- C1: the claim states that once a ticket is confirmed no subsequent
operation writes a different status.  The code disagrees for the webhook: on
a confirmed ticket, a failure callback unconditionally overwrites status with
failed (route.ts lines 104-119 perform no already-confirmed check). -/
theorem C1_counterexample :
    ticketConfirmed.status = "confirmed" ∧
    ((webhookPOST (storeWith ticketConfirmed) (WebhookRequest.valid cbFail) 7).2.tickets
        "T1").map Ticket.status = some "failed" ∧
    ((webhookPOST (storeWith ticketConfirmed) (WebhookRequest.valid cbFail) 7).2.tickets
        "T1").map Ticket.status ≠ some "confirmed" := by
  refine ⟨rfl, by decide, by decide⟩

/-- C1 amended: of the three operations, only checkTransactionStatus
preserves a confirmed status (it short-circuits without writing anything);
the webhook POST overwrites a confirmed ticket's status with the
evidence-derived status — failure evidence turns it into failed — and
handlePaymentInitiation, given valid parameters, overwrites the status of any
existing ticket (confirmed included) with the initiation-outcome status,
which is never confirmed. -/
theorem C1_amended :
    (∀ (s : Store) (p : StatusParams) (gw : Except String StatusApiResponse)
        (now : Nat) (t : Ticket),
        p.umeskiaTransactionRequestId ≠ "" → p.ticketId ≠ "" →
        s.tickets p.ticketId = some t → t.status = "confirmed" →
        checkTransactionStatus s p true gw now =
          ({ success := true, message := "Payment already confirmed."
             isConfirmed := some true }, s))
    ∧
    (∀ (s : Store) (cb : StkCallback) (now : Nat) (tid : String) (t : Ticket),
        cb.TransactionReference = some tid → s.tickets tid = some t →
        t.status = "confirmed" → cb.ResponseCode ≠ 0 →
        ((webhookPOST s (WebhookRequest.valid cb) now).2.tickets tid).map Ticket.status
          = some "failed")
    ∧
    (∀ (s : Store) (p : InitParams) (gw : Except String InitApiResponse)
        (now : Nat) (t : Ticket),
        initValidationErrors p = [] → s.tickets p.ticketId = some t →
        t.status = "confirmed" →
        ((handlePaymentInitiation s p true gw now).2.tickets p.ticketId).map Ticket.status
          ≠ some "confirmed") := by
  refine ⟨?_, ?_, ?_⟩
  · intro s p gw now t hu hti ht hc
    exact checkStatus_confirmed_shortcircuit s p gw now t hu hti ht hc
  · intro s cb now tid t href ht _ hrc
    rw [webhookPOST_found s cb now tid t href ht]
    rw [webhookApplyEvidence_ticket]
    simp [webhookTicketUpdate_status, webhookStatus_of_fail cb hrc]
  · intro s p gw now t hv ht
    rw [handlePaymentInitiation_status s p gw now t hv ht]
    simp [initOutcomeStatus_ne_confirmed gw]

theorem C1_amended_witness :
    checkTransactionStatus (storeWith ticketConfirmed) statusParamsOk true
        (Except.ok statusOkR) 5 =
      ({ success := true, message := "Payment already confirmed."
         isConfirmed := some true }, storeWith ticketConfirmed)
    ∧
    ((webhookPOST (storeWith ticketConfirmed) (WebhookRequest.valid cbFail) 7).2.tickets
        "T1").map Ticket.status = some "failed"
    ∧
    ((handlePaymentInitiation (storeWith ticketConfirmed) initParamsOk true
        (Except.ok { success := "200", transaction_request_id := some "R-2"
                     msg := "Request sent sucessfully." }) 3).2.tickets
        "T1").map Ticket.status ≠ some "confirmed" := by
  refine ⟨C1_amended.1 _ statusParamsOk _ 5 ticketConfirmed (by decide) (by decide) (by decide) rfl,
          C1_amended.2.1 _ cbFail 7 "T1" ticketConfirmed (by decide) (by decide) rfl (by decide),
          C1_amended.2.2 _ initParamsOk _ 3 ticketConfirmed (by decide) (by decide) rfl⟩

/-- C2: the claim states that confirmation evidence arriving for an
already-confirmed ticket short-circuits, leaving every receipt field
unchanged.  The webhook does no such thing: on a confirmed ticket whose
stored receipt number is OLDRCPT, a success callback carrying receipt NEWRCPT
overwrites the receipt field. -/
theorem C2_counterexample :
    ticketConfirmed.status = "confirmed" ∧
    ((storeWith ticketConfirmed).tickets "T1").map Ticket.mpesaReceiptNumber
      = some (some "OLDRCPT") ∧
    ((webhookRun (storeWith ticketConfirmed) cbSuccess 7).tickets "T1").map
        Ticket.mpesaReceiptNumber = some (some "NEWRCPT") ∧
    ((webhookRun (storeWith ticketConfirmed) cbSuccess 7).tickets "T1").map
        Ticket.mpesaReceiptNumber
      ≠ ((storeWith ticketConfirmed).tickets "T1").map Ticket.mpesaReceiptNumber := by
  refine ⟨rfl, by decide, by decide, by decide⟩

/-- C2 amended: only the manual poll short-circuits on an already-confirmed
ticket (it answers "Payment already confirmed." with isConfirmed true and
leaves the store untouched).  The webhook has no already-confirmed check: it
re-applies the evidence, so identical success evidence applied twice yields
confirmed both times with the same receipt-field values only because the same
values are written again, and each application appends an ordinary callback
audit entry — the second is not marked duplicate. -/
theorem C2_amended :
    (∀ (s : Store) (p : StatusParams) (gw : Except String StatusApiResponse)
        (now : Nat) (t : Ticket),
        p.umeskiaTransactionRequestId ≠ "" → p.ticketId ≠ "" →
        s.tickets p.ticketId = some t → t.status = "confirmed" →
        checkTransactionStatus s p true gw now =
          ({ success := true, message := "Payment already confirmed."
             isConfirmed := some true }, s))
    ∧
    (∀ (s : Store) (cb : StkCallback) (now1 now2 : Nat) (tid : String) (t : Ticket),
        cb.TransactionReference = some tid → s.tickets tid = some t →
        cb.ResponseCode = 0 → (truthyStr cb.TransactionDate).isSome →
        ((webhookRun s cb now1).tickets tid).map Ticket.status = some "confirmed" ∧
        ((webhookRun (webhookRun s cb now1) cb now2).tickets tid).map Ticket.status
          = some "confirmed" ∧
        ((webhookRun (webhookRun s cb now1) cb now2).tickets tid).map
            Ticket.mpesaReceiptNumber
          = ((webhookRun s cb now1).tickets tid).map Ticket.mpesaReceiptNumber ∧
        ((webhookRun (webhookRun s cb now1) cb now2).tickets tid).map
            Ticket.mpesaAmountPaid
          = ((webhookRun s cb now1).tickets tid).map Ticket.mpesaAmountPaid ∧
        ((webhookRun (webhookRun s cb now1) cb now2).tickets tid).map
            Ticket.mpesaPhoneNumber
          = ((webhookRun s cb now1).tickets tid).map Ticket.mpesaPhoneNumber ∧
        ((webhookRun (webhookRun s cb now1) cb now2).tickets tid).map
            Ticket.mpesaTransactionTimestamp
          = ((webhookRun s cb now1).tickets tid).map Ticket.mpesaTransactionTimestamp ∧
        (webhookRun (webhookRun s cb now1) cb now2).transactions
          = s.transactions ++ [webhookLogEntry tid cb now1, webhookLogEntry tid cb now2]) := by
  constructor
  · intro s p gw now t hu hti ht hc
    exact checkStatus_confirmed_shortcircuit s p gw now t hu hti ht hc
  · intro s cb now1 now2 tid t href ht hrc hdate
    obtain ⟨d, hd⟩ := Option.isSome_iff_exists.mp hdate
    have h1 : (webhookRun s cb now1).tickets tid = some (webhookTicketUpdate t cb now1) :=
      webhookRun_ticket s cb now1 tid t href ht
    have h2 : (webhookRun (webhookRun s cb now1) cb now2).tickets tid
        = some (webhookTicketUpdate (webhookTicketUpdate t cb now1) cb now2) :=
      webhookRun_ticket _ cb now2 tid _ href h1
    have htr1 : (webhookRun s cb now1).transactions
        = s.transactions ++ [webhookLogEntry tid cb now1] :=
      webhookRun_transactions s cb now1 tid t href ht
    have htr2 : (webhookRun (webhookRun s cb now1) cb now2).transactions
        = (webhookRun s cb now1).transactions ++ [webhookLogEntry tid cb now2] :=
      webhookRun_transactions _ cb now2 tid _ href h1
    refine ⟨?_, ?_, ?_, ?_, ?_, ?_, ?_⟩
    · rw [h1]
      simp [webhookTicketUpdate_status, webhookStatus_of_success cb hrc]
    · rw [h2]
      simp [webhookTicketUpdate_status, webhookStatus_of_success cb hrc]
    · rw [h1, h2]
      simp [webhookTicketUpdate]
    · rw [h1, h2]
      simp [webhookTicketUpdate]
    · rw [h1, h2]
      cases hm : truthyStr cb.Msisdn <;> simp [webhookTicketUpdate, hm]
    · rw [h1, h2]
      simp [webhookTicketUpdate, webhookDate, hd]
    · rw [htr2, htr1, List.append_assoc]
      rfl

theorem C2_amended_witness :
    checkTransactionStatus (storeWith ticketConfirmed) statusParamsOk true
        (Except.error "network down") 6 =
      ({ success := true, message := "Payment already confirmed."
         isConfirmed := some true }, storeWith ticketConfirmed)
    ∧
    ((webhookRun (webhookRun (storeWith ticketPending) cbSuccess 1) cbSuccess 2).tickets
        "T1").map Ticket.mpesaReceiptNumber
      = ((webhookRun (storeWith ticketPending) cbSuccess 1).tickets "T1").map
          Ticket.mpesaReceiptNumber := by
  constructor
  · exact C2_amended.1 _ statusParamsOk _ 6 ticketConfirmed (by decide) (by decide)
      (by decide) rfl
  · exact (C2_amended.2 (storeWith ticketPending) cbSuccess 1 2 "T1" ticketPending
      (by decide) (by decide) (by decide) (by decide)).2.2.1

theorem checkStatus_transactions (s : Store) (p : StatusParams)
    (r : StatusApiResponse) (now : Nat) (t : Ticket)
    (hu : p.umeskiaTransactionRequestId ≠ "") (hti : p.ticketId ≠ "")
    (ht : s.tickets p.ticketId = some t) (hc : t.status ≠ "confirmed") :
    (checkTransactionStatus s p true (Except.ok r) now).2.transactions =
      if statusConfirms r
      then s.transactions ++ [statusAttemptLog p r now, statusConfirmedLog p.ticketId t r now]
      else s.transactions ++ [statusAttemptLog p r now] := by
  unfold checkTransactionStatus statusValidationErrors
  simp only [hu, hti, ht, hc]
  by_cases hconf : statusConfirms r
  · simp [hu, hti, hc, hconf, Store.addLog, Store.setTicket]
  · simp only [hu, hti, hc, hconf, if_false, ite_false, if_neg, Bool.false_eq_true]
    simp [hu, hti, hc, hconf, Store.addLog]
    split <;> simp [Store.addLog]

/-- C4: the claim states every evidence instance produces exactly one audit
entry.  A confirming manual-poll response produces two: the status-check
attempt entry and the confirmation entry (actions.ts lines 607-613 and
648-663), shown here on a concrete poll that starts from an empty
transactions collection. -/
theorem C4_counterexample :
    (checkTransactionStatus (storeWith ticketPending) statusParamsOk true
        (Except.ok statusOkR) 5).2.transactions.length = 2 ∧
    (storeWith ticketPending).transactions.length = 0 ∧
    (checkTransactionStatus (storeWith ticketPending) statusParamsOk true
        (Except.ok statusOkR) 5).2.transactions.length ≠
      (storeWith ticketPending).transactions.length + 1 := by
  refine ⟨by decide, rfl, by decide⟩

/-- C4 amended: a webhook callback that matches an existing ticket appends
exactly one audit entry, but a callback with a missing or unmatched ticket
reference appends none (it is only acknowledged), and a manual-poll response
appends one status-check entry plus a second confirmation entry when the
response confirms the payment — two entries in total for confirming polls. -/
theorem C4_amended :
    (∀ (s : Store) (cb : StkCallback) (now : Nat) (tid : String) (t : Ticket),
        cb.TransactionReference = some tid → s.tickets tid = some t →
        (webhookRun s cb now).transactions = s.transactions ++ [webhookLogEntry tid cb now])
    ∧
    (∀ (s : Store) (cb : StkCallback) (now : Nat),
        cb.TransactionReference = none → webhookRun s cb now = s)
    ∧
    (∀ (s : Store) (cb : StkCallback) (now : Nat) (tid : String),
        cb.TransactionReference = some tid → s.tickets tid = none →
        webhookRun s cb now = s)
    ∧
    (∀ (s : Store) (p : StatusParams) (r : StatusApiResponse) (now : Nat) (t : Ticket),
        p.umeskiaTransactionRequestId ≠ "" → p.ticketId ≠ "" →
        s.tickets p.ticketId = some t → t.status ≠ "confirmed" →
        (checkTransactionStatus s p true (Except.ok r) now).2.transactions =
          if statusConfirms r
          then s.transactions ++
            [statusAttemptLog p r now, statusConfirmedLog p.ticketId t r now]
          else s.transactions ++ [statusAttemptLog p r now]) := by
  refine ⟨?_, ?_, ?_, ?_⟩
  · intro s cb now tid t href ht
    exact webhookRun_transactions s cb now tid t href ht
  · intro s cb now href
    unfold webhookRun webhookPOST
    simp [href]
  · intro s cb now tid href ht
    unfold webhookRun webhookPOST
    simp [href, ht]
  · intro s p r now t hu hti ht hc
    exact checkStatus_transactions s p r now t hu hti ht hc

theorem C4_amended_witness :
    (webhookRun (storeWith ticketPending) cbSuccess 3).transactions
      = [webhookLogEntry "T1" cbSuccess 3]
    ∧ webhookRun (storeWith ticketPending) cbNoRef 3 = storeWith ticketPending
    ∧ webhookRun (storeWith ticketPending) cbUnknown 3 = storeWith ticketPending
    ∧ (checkTransactionStatus (storeWith ticketPending) statusParamsOk true
        (Except.ok statusOkR) 5).2.transactions
        = [statusAttemptLog statusParamsOk statusOkR 5,
           statusConfirmedLog "T1" ticketPending statusOkR 5]
    ∧ (checkTransactionStatus (storeWith ticketPending) statusParamsOk true
        (Except.ok statusPendingR) 5).2.transactions
        = [statusAttemptLog statusParamsOk statusPendingR 5] := by
  refine ⟨?_, ?_, ?_, ?_, ?_⟩
  · simpa using C4_amended.1 (storeWith ticketPending) cbSuccess 3 "T1" ticketPending
      (by decide) (by decide)
  · exact C4_amended.2.1 (storeWith ticketPending) cbNoRef 3 (by decide)
  · exact C4_amended.2.2.1 (storeWith ticketPending) cbUnknown 3 "TX" (by decide) (by decide)
  · simpa using C4_amended.2.2.2 (storeWith ticketPending) statusParamsOk statusOkR 5
      ticketPending (by decide) (by decide) (by decide) (by decide)
  · simpa using C4_amended.2.2.2 (storeWith ticketPending) statusParamsOk statusPendingR 5
      ticketPending (by decide) (by decide) (by decide) (by decide)

/-- C5: the automatic email guard attempts delivery exactly when the ticket
is confirmed, an email address is present and emailSent is false (one
recipient is handed to the delivery collaborator, none otherwise, and the
ticket is untouched otherwise); emailSent is flipped to true only after the
delivery succeeded, and a failed delivery leaves emailSent false and records
the delivery error. -/
theorem C5_theorem (s : Store) (tid : String) (t : Ticket) (d : EmailDelivery)
    (now : Nat) (htid : tid ≠ "") (ht : s.tickets tid = some t) :
    ((processAndSendTicketEmail s tid d now).2.sentEmails.length
        = s.sentEmails.length + (if autoEmailGuard t then 1 else 0))
    ∧ (autoEmailGuard t = false →
        (processAndSendTicketEmail s tid d now).2.tickets tid = some t)
    ∧ (autoEmailGuard t = true → d.success = true →
        ((processAndSendTicketEmail s tid d now).2.tickets tid).map Ticket.emailSent
          = some true)
    ∧ (autoEmailGuard t = true → d.success = false →
        ((processAndSendTicketEmail s tid d now).2.tickets tid).map Ticket.emailSent
          = some false
        ∧ ((processAndSendTicketEmail s tid d now).2.tickets tid).map Ticket.lastEmailError
          = some (some d.message)) := by
  by_cases hst : t.status = "confirmed"
  · cases he : truthyStr t.email with
    | none =>
        have hg : autoEmailGuard t = false := by simp [autoEmailGuard, he]
        unfold processAndSendTicketEmail
        simp [htid, ht, hst, he, hg]
    | some r =>
        have hr : r ≠ "" := truthyStr_some_ne _ _ he
        cases hes : t.emailSent with
        | true =>
            have hg : autoEmailGuard t = false := by simp [autoEmailGuard, hes]
            unfold processAndSendTicketEmail
            simp [htid, ht, hst, he, hes, hg]
        | false =>
            have hg : autoEmailGuard t = true := by
              simp [autoEmailGuard, hst, he, hes]
            unfold processAndSendTicketEmail
            simp only [htid, ht, hst, he, hes]
            cases hds : d.success with
            | true =>
                simp [htid, hst, hds, hg, sendPaymentConfirmationEmail, hr,
                  Store.recordSend, Store.setTicket]
            | false =>
                simp [htid, hst, hds, hg, sendPaymentConfirmationEmail, hr,
                  Store.recordSend, Store.setTicket, hes]
  · have hg : autoEmailGuard t = false := by simp [autoEmailGuard, hst]
    unfold processAndSendTicketEmail
    simp [htid, ht, hst, hg]

theorem C5_witness :
    (processAndSendTicketEmail (storeWith ticketConfirmed) "T1" deliveryFail 4).2.sentEmails.length = 1
    ∧ ((processAndSendTicketEmail (storeWith ticketConfirmed) "T1" deliveryFail 4).2.tickets
        "T1").map Ticket.emailSent = some false
    ∧ ((processAndSendTicketEmail (storeWith ticketConfirmed) "T1" deliveryFail 4).2.tickets
        "T1").map Ticket.lastEmailError = some (some "Failed to send email: boom")
    ∧ (processAndSendTicketEmail (storeWith ticketConfirmedSent) "T1" deliveryOk 4).2.tickets
        "T1" = some ticketConfirmedSent := by
  have h1 := C5_theorem (storeWith ticketConfirmed) "T1" ticketConfirmed deliveryFail 4
    (by decide) (by decide)
  have h2 := C5_theorem (storeWith ticketConfirmedSent) "T1" ticketConfirmedSent deliveryOk 4
    (by decide) (by decide)
  refine ⟨?_, ?_, ?_, ?_⟩
  · simpa using h1.1
  · exact (h1.2.2.2 (by decide) (by decide)).1
  · exact (h1.2.2.2 (by decide) (by decide)).2
  · exact h2.2.1 (by decide)

/-- C6: for a confirmed ticket with an email address on file, the explicit
resend always hands the recipient to the delivery collaborator — emailSent is
never consulted — increments the resend attempt counter, reports the delivery
outcome, and records the delivery error on failure. -/
theorem C6_theorem (s : Store) (tid : String) (t : Ticket) (d : EmailDelivery)
    (now : Nat) (e : String) (htid : tid ≠ "") (ht : s.tickets tid = some t)
    (hst : t.status = "confirmed") (he : truthyStr t.email = some e) :
    ((resendTicketEmailAction s tid d now).2.sentEmails = s.sentEmails ++ [e])
    ∧ ((resendTicketEmailAction s tid d now).2.tickets tid).map Ticket.resentEmailCount
        = some (t.resentEmailCount + 1)
    ∧ (d.success = false →
        ((resendTicketEmailAction s tid d now).2.tickets tid).map Ticket.lastEmailError
          = some (some d.message))
    ∧ ((resendTicketEmailAction s tid d now).1.success = d.success) := by
  have hr : e ≠ "" := truthyStr_some_ne _ _ he
  unfold resendTicketEmailAction
  simp only [htid, ht, hst, he]
  cases hds : d.success with
  | true =>
      simp [htid, hst, hds, sendPaymentConfirmationEmail, hr,
        Store.recordSend, Store.setTicket]
  | false =>
      simp [htid, hst, hds, sendPaymentConfirmationEmail, hr,
        Store.recordSend, Store.setTicket]

theorem C6_witness :
    ticketConfirmedSent.emailSent = true
    ∧ (resendTicketEmailAction (storeWith ticketConfirmedSent) "T1" deliveryOk 4).2.sentEmails
        = ["guest@example.com"]
    ∧ ((resendTicketEmailAction (storeWith ticketConfirmedSent) "T1" deliveryOk 4).2.tickets
        "T1").map Ticket.resentEmailCount = some 1
    ∧ (resendTicketEmailAction (storeWith ticketConfirmedSent) "T1" deliveryOk 4).1.success
        = true := by
  have h := C6_theorem (storeWith ticketConfirmedSent) "T1" ticketConfirmedSent deliveryOk 4
    "guest@example.com" (by decide) (by decide) rfl (by decide)
  exact ⟨rfl, by simpa using h.1, by simpa using h.2.1, by simpa using h.2.2.2⟩

theorem handlePaymentInitiation_success (s : Store) (p : InitParams)
    (gw : Except String InitApiResponse) (now : Nat) (t : Ticket)
    (hv : initValidationErrors p = []) (ht : s.tickets p.ticketId = some t) :
    (handlePaymentInitiation s p true gw now).1.success = initOutcomeSuccess gw := by
  unfold handlePaymentInitiation
  rw [hv]
  simp only [ht]
  cases gw with
  | error msg => simp [initOutcomeSuccess]
  | ok r =>
      by_cases hok : r.success = "200" ∧ (truthyStr r.transaction_request_id).isSome
      · simp [initOutcomeSuccess, hok]
      · simp [initOutcomeSuccess, hok]

/-- C7: the claim states that initiation on an already-confirmed ticket
returns an AlreadyConfirmed error and leaves the ticket unmodified.  The code
has no such check: on the concrete confirmed ticket, valid parameters and an
accepting gateway, initiation reports success and rewrites the ticket (its
status becomes payment_stk_sent). -/
theorem C7_counterexample :
    ticketConfirmed.status = "confirmed" ∧
    (handlePaymentInitiation (storeWith ticketConfirmed) initParamsOk true
        (Except.ok initGatewayOk) 3).1.success = true ∧
    ((handlePaymentInitiation (storeWith ticketConfirmed) initParamsOk true
        (Except.ok initGatewayOk) 3).2.tickets "T1") ≠ some ticketConfirmed ∧
    ((handlePaymentInitiation (storeWith ticketConfirmed) initParamsOk true
        (Except.ok initGatewayOk) 3).2.tickets "T1").map Ticket.status
      = some "payment_stk_sent" := by
  refine ⟨rfl, by decide, by decide, by decide⟩

/-- C7 amended: handlePaymentInitiation requires only that validation passes
and that the ticket exists — there is no already-confirmed precondition.  On
a missing ticket it returns the not-found error without writing; on an
existing ticket, confirmed included, it proceeds normally: the result's
success flag and the ticket's final status are determined by the gateway
outcome alone (payment_stk_sent, payment_initiation_failed or
payment_initiation_error — never an AlreadyConfirmed error, never leaving the
confirmed status in place). -/
theorem C7_amended :
    (∀ (s : Store) (p : InitParams) (gw : Except String InitApiResponse) (now : Nat),
        initValidationErrors p = [] → s.tickets p.ticketId = none →
        handlePaymentInitiation s p true gw now =
          ({ success := false
             message := some ("Ticket " ++ p.ticketId ++ " not found.") }, s))
    ∧
    (∀ (s : Store) (p : InitParams) (gw : Except String InitApiResponse)
        (now : Nat) (t : Ticket),
        initValidationErrors p = [] → s.tickets p.ticketId = some t →
        t.status = "confirmed" →
        (handlePaymentInitiation s p true gw now).1.success = initOutcomeSuccess gw ∧
        ((handlePaymentInitiation s p true gw now).2.tickets p.ticketId).map Ticket.status
          = some (initOutcomeStatus gw) ∧
        initOutcomeStatus gw ≠ "confirmed") := by
  constructor
  · intro s p gw now hv ht
    unfold handlePaymentInitiation
    rw [hv]
    simp [ht]
  · intro s p gw now t hv ht _
    exact ⟨handlePaymentInitiation_success s p gw now t hv ht,
           handlePaymentInitiation_status s p gw now t hv ht,
           initOutcomeStatus_ne_confirmed gw⟩

theorem C7_amended_witness :
    handlePaymentInitiation (storeWith ticketConfirmed)
        { initParamsOk with ticketId := "T9" } true (Except.ok initGatewayOk) 3 =
      ({ success := false, message := some "Ticket T9 not found." },
       storeWith ticketConfirmed)
    ∧
    (handlePaymentInitiation (storeWith ticketConfirmed) initParamsOk true
        (Except.ok initGatewayOk) 3).1.success = initOutcomeSuccess (Except.ok initGatewayOk)
    ∧
    ((handlePaymentInitiation (storeWith ticketConfirmed) initParamsOk true
        (Except.ok initGatewayOk) 3).2.tickets "T1").map Ticket.status
      = some (initOutcomeStatus (Except.ok initGatewayOk)) := by
  refine ⟨?_, ?_, ?_⟩
  · exact C7_amended.1 (storeWith ticketConfirmed) { initParamsOk with ticketId := "T9" }
      (Except.ok initGatewayOk) 3 (by decide) (by decide)
  · exact (C7_amended.2 (storeWith ticketConfirmed) initParamsOk (Except.ok initGatewayOk) 3
      ticketConfirmed (by decide) (by decide) rfl).1
  · exact (C7_amended.2 (storeWith ticketConfirmed) initParamsOk (Except.ok initGatewayOk) 3
      ticketConfirmed (by decide) (by decide) rfl).2.1

/-- C8: the claim states evidence processing is order-independent in favour
of success, in particular that a failure arriving after a success is ignored
and the ticket stays confirmed.  The webhook disagrees: success then failure
leaves the concrete ticket failed, because the failure callback is applied
unconditionally. -/
theorem C8_counterexample :
    cbSuccess.ResponseCode = 0 ∧ cbFail.ResponseCode ≠ 0 ∧
    ((webhookRun (webhookRun (storeWith ticketPending) cbSuccess 1) cbFail 2).tickets
        "T1").map Ticket.status = some "failed" ∧
    ((webhookRun (webhookRun (storeWith ticketPending) cbSuccess 1) cbFail 2).tickets
        "T1").map Ticket.status ≠ some "confirmed" := by
  refine ⟨rfl, by decide, by decide, by decide⟩

/-- C8 amended: the webhook applies whichever evidence arrives last.  Failure
followed by success leaves the ticket confirmed (a later success does
transition failed to confirmed), but success followed by failure leaves it
failed — the failure is not ignored after confirmation. -/
theorem C8_amended :
    (∀ (s : Store) (cbF cbS : StkCallback) (now1 now2 : Nat) (tid : String) (t : Ticket),
        cbF.TransactionReference = some tid → cbS.TransactionReference = some tid →
        s.tickets tid = some t → cbF.ResponseCode ≠ 0 → cbS.ResponseCode = 0 →
        ((webhookRun (webhookRun s cbF now1) cbS now2).tickets tid).map Ticket.status
          = some "confirmed")
    ∧
    (∀ (s : Store) (cbS cbF : StkCallback) (now1 now2 : Nat) (tid : String) (t : Ticket),
        cbS.TransactionReference = some tid → cbF.TransactionReference = some tid →
        s.tickets tid = some t → cbS.ResponseCode = 0 → cbF.ResponseCode ≠ 0 →
        ((webhookRun (webhookRun s cbS now1) cbF now2).tickets tid).map Ticket.status
          = some "failed") := by
  constructor
  · intro s cbF cbS now1 now2 tid t hrefF hrefS ht hF hS
    have h1 := webhookRun_ticket s cbF now1 tid t hrefF ht
    have h2 := webhookRun_ticket _ cbS now2 tid _ hrefS h1
    rw [h2]
    simp [webhookTicketUpdate_status, webhookStatus_of_success cbS hS]
  · intro s cbS cbF now1 now2 tid t hrefS hrefF ht hS hF
    have h1 := webhookRun_ticket s cbS now1 tid t hrefS ht
    have h2 := webhookRun_ticket _ cbF now2 tid _ hrefF h1
    rw [h2]
    simp [webhookTicketUpdate_status, webhookStatus_of_fail cbF hF]

theorem C8_amended_witness :
    ((webhookRun (webhookRun (storeWith ticketPending) cbFail 1) cbSuccess 2).tickets
        "T1").map Ticket.status = some "confirmed"
    ∧
    ((webhookRun (webhookRun (storeWith ticketPending) cbSuccess 1) cbFail 2).tickets
        "T1").map Ticket.status = some "failed" := by
  constructor
  · exact C8_amended.1 (storeWith ticketPending) cbFail cbSuccess 1 2 "T1" ticketPending
      (by decide) (by decide) (by decide) (by decide) (by decide)
  · exact C8_amended.2 (storeWith ticketPending) cbSuccess cbFail 1 2 "T1" ticketPending
      (by decide) (by decide) (by decide) (by decide) (by decide)

/-- C10: sendPaymentConfirmationEmail invoked with an empty (or missing)
recipient address returns success=false with an explanatory message and never
reaches the delivery collaborator, whatever that collaborator would have
answered. -/
theorem C10_theorem : ∀ (d : EmailDelivery),
    sendPaymentConfirmationEmail "" d =
      ({ success := false, message := "No recipient email address provided." }, false) := by
  intro d
  rfl

end RnrPay
